import Mathlib

/-!
# Verification of the MemGraph memory engine

Shallow embedding, in Lean 4, of the memory subsystem of the MemGraph
repository (extraction, write fan-out, retrieval fusion scoring, forgetting,
store adapters), together with proofs that settle the specification claims
against it.

Modelling conventions used throughout:

* Python floats are modelled by `Fl`: either NaN or an exact rational.
  IEEE `0.0/0.0` yields NaN (it does not raise an exception, which matters for
  `cosine_similarity` below).  Where a float's exact value is irrational
  (`exp`, `sqrt`), the function is taken as a parameter (`expQ`, `sq`) so
  theorems hold for every model of it; closed theorems instantiate `sq` with
  `Rat.sqrt`, which agrees with real square root on the only point the proofs
  depend on (`Rat.sqrt 0 = 0`).
* Timestamps are modelled as rational numbers of seconds.  The Python code
  stores ISO-8601 strings whose lexicographic order agrees with chronological
  order; a string that is empty or fails to parse is modelled as `none`.
* External collaborators (the Bedrock reasoning/embedding gateway, the Neo4j
  driver, the ChromaDB distance computation) are modelled as function
  parameters ("oracles"), since the engine treats them as opaque.
* Each store's persistent state is modelled as a list of rows; store methods
  become pure state-passing functions translated from the adapter code.
-/

namespace MemGraph

/-! ## A model of Python floats: NaN or a finite rational -/

/-- A Python float as the engine observes it: NaN, or a finite value modelled
exactly by a rational.  Infinities are omitted: the only division in the
engine is in `cosine_similarity`, where a zero denominator forces a zero
numerator (`dot_self_eq_zero_imp`), so the IEEE result of every reachable
division by zero is `0.0/0.0 = NaN`. -/
inductive Fl where
  | nan : Fl
  | fin : ℚ → Fl
deriving DecidableEq

/-- IEEE addition on the float model: NaN propagates. -/
def flAdd : Fl → Fl → Fl
  | .nan, _ => .nan
  | _, .nan => .nan
  | .fin a, .fin b => .fin (a + b)

/-- IEEE multiplication on the float model: NaN propagates. -/
def flMul : Fl → Fl → Fl
  | .nan, _ => .nan
  | _, .nan => .nan
  | .fin a, .fin b => .fin (a * b)

/-- IEEE division of two finite floats.  A zero denominator gives NaN; in this
development that case only arises with a zero numerator (see
`dot_self_eq_zero_imp`), matching IEEE `0.0/0.0 = NaN`. -/
def flDiv (n d : ℚ) : Fl :=
  if d = 0 then .nan else .fin (n / d)

/-- Boolean "less or equal" on the float model, mirroring IEEE comparisons:
any comparison involving NaN is false. -/
def flLeB : Fl → Fl → Bool
  | .fin a, .fin b => decide (a ≤ b)
  | _, _ => false

/-! ## Retrieval scoring (`src/app/memory/retrieval.py`)

`MemoryRetriever.cosine_similarity / recency_score / importance_score /
graph_proximity_score / calculate_score`, translated line by line. -/

/-- Model of `np.dot` on two equal-length 1-D arrays. -/
def dot : List ℚ → List ℚ → ℚ
  | a :: as_, b :: bs => a * b + dot as_ bs
  | _, _ => 0

/-- Sum of squares; `np.linalg.norm v` is its square root. -/
def sumSq (v : List ℚ) : ℚ := dot v v

/-- Model of `MemoryRetriever.cosine_similarity`:
`np.dot(a, b) / (np.linalg.norm(a) * np.linalg.norm(b))` inside a blanket
`try/except` returning `0.0`.

* Mismatched lengths make `np.dot` raise `ValueError`, which the `except`
  catches, so the result is the finite float `0.0`.
* With equal lengths no exception occurs.  If both norms are zero the
  division is IEEE `0.0/0.0 = NaN` — a *warning*, not an exception, so the
  `except` branch does **not** fire and NaN is returned.

`sq` models floating-point square root (`Rat.sqrt` in closed theorems). -/
def cosine_similarity (sq : ℚ → ℚ) (a b : List ℚ) : Fl :=
  if a.length ≠ b.length then .fin 0
  else flDiv (dot a b) (sq (sumSq a) * sq (sumSq b))

/-- Model of `MemoryRetriever.recency_score`: an empty or unparseable timestamp (the
`none` case) scores 0; otherwise `delta = datetime.now() - timestamp` and the
result is `np.exp(-delta.total_seconds() / (days * 24 * 3600))` with
`days = 7`.  Timestamps are integer seconds; `expQ` models `np.exp`. -/
def recency_score (expQ : ℚ → ℚ) (now : ℤ) (ts : Option ℤ) : ℚ :=
  match ts with
  | none => 0
  | some t => expQ (-((now - t : ℤ) : ℚ) / (7 * 24 * 3600))

/-- The metadata dictionary fields that `calculate_score` reads.  `none`
models an absent key; the timestamp is in integer seconds (the code stores an
ISO-8601 string whose lexicographic order matches chronological order). -/
structure Metadata where
  timestamp : Option ℤ
  importance : Option ℚ
  priority : Option String
deriving DecidableEq

/-- The `priority_scores` dictionary lookup
`{"high": 1.0, "medium": 0.5, "low": 0.2}.get(priority, 0.5)`. -/
def priority_scores (p : String) : ℚ :=
  if p = "high" then 1
  else if p = "medium" then 0.5
  else if p = "low" then 0.2
  else 0.5

/-- Model of `MemoryRetriever.importance_score`:
`metadata.get("importance", 0.5) * priority_scores.get(metadata.get("priority", "medium"), 0.5)`. -/
def importance_score (md : Metadata) : ℚ :=
  (md.importance.getD 0.5) * priority_scores (md.priority.getD "medium")

/-- Model of `MemoryRetriever.graph_proximity_score`:
`1.0 / (1.0 + path_len) if path_len < 99 else 0.0`, where `path_len` comes
from the graph store's `shortest_path_len` (modelled by the oracle `pathLen`;
the store itself returns the sentinel 99 on errors or no path, and the
retriever's own `except` branch returns `0.0`, which coincides with the
sentinel case). -/
def graph_proximity_score (pathLen : String → String → ℕ) (guid topic : String) : ℚ :=
  let path_len := pathLen guid topic
  if path_len < 99 then 1 / (1 + (path_len : ℚ)) else 0

/-- The episode dictionary fields that `calculate_score` reads: the
`embedding` key defaults to the empty list when absent (as it is for every
result of `query_similar`), and `metadata` defaults to `{}`. -/
structure EpisodeDict where
  embedding : List ℚ
  metadata : Metadata
deriving DecidableEq

/-- Model of `MemoryRetriever.calculate_score`, translated clause by clause:
cosine similarity is skipped (scored `0.0`) for an empty episode embedding,
then the weighted sum `0.55·sim + 0.2·recency + 0.15·importance + 0.1·graph`
is computed, with the graph term a running maximum over the query tokens. -/
def calculate_score (sq expQ : ℚ → ℚ) (pathLen : String → String → ℕ) (now : ℤ)
    (episode : EpisodeDict) (query_embedding : List ℚ)
    (query_tokens : List String) (guid : String) : Fl :=
  let sim_score : Fl :=
    if episode.embedding ≠ [] then cosine_similarity sq query_embedding episode.embedding
    else .fin 0
  let recencyS : ℚ := recency_score expQ now episode.metadata.timestamp
  let importanceS : ℚ := importance_score episode.metadata
  let graph_score : ℚ :=
    query_tokens.foldl (fun acc token => max acc (graph_proximity_score pathLen guid token)) 0
  flAdd (flAdd (flAdd (flMul (.fin 0.55) sim_score)
    (flMul (.fin 0.2) (.fin recencyS)))
    (flMul (.fin 0.15) (.fin importanceS)))
    (flMul (.fin 0.1) (.fin graph_score))

/-! ## The specification's fused-score formula, written from the spec's words
(for the refinement claim C1).  These definitions follow the sentences
`score = 0.55·cosSim + 0.20·recency + 0.15·importance + 0.10·graphProximity`,
`recency(ts) = exp(-Δt/(7·86400))`, `importance = importanceValue ×
priorityMultiplier{high:1.0, medium:0.5, low:0.2}` (default medium), and
`graphProximity = max over query tokens of 1/(1+shortestPathLength)` with a
path length at or above the sentinel 99 contributing 0; an undefined
sub-term (missing episode embedding) is treated as 0. -/

/-- Spec: `recency(ts) = exp(-Δt / (7·86400))` with `Δt` the episode's age in
seconds; an absent timestamp is an undefined sub-term, treated as 0. -/
def specRecency (expQ : ℚ → ℚ) (now : ℤ) (ts : Option ℤ) : ℚ :=
  match ts with
  | none => 0
  | some t => expQ (-((now - t : ℤ) : ℚ) / (7 * 86400))

/-- Spec: `priorityMultiplier` is high → 1.0, medium → 0.5, low → 0.2, with
medium the default for anything else. -/
def specPriorityMultiplier (p : String) : ℚ :=
  if p = "high" then 1
  else if p = "medium" then 0.5
  else if p = "low" then 0.2
  else 0.5

/-- Spec: `importance = importanceValue × priorityMultiplier`, defaulting the
value to 0.5 and the priority to medium. -/
def specImportance (md : Metadata) : ℚ :=
  (md.importance.getD 0.5) * specPriorityMultiplier (md.priority.getD "medium")

/-- Spec: `graphProximity = max over query tokens of 1/(1+shortestPathLength)`,
where a path length at or above the sentinel 99 contributes 0 (an empty token
list contributes the neutral 0). -/
def specGraphProximity (pathLen : String → String → ℕ) (guid : String)
    (tokens : List String) : ℚ :=
  (tokens.map (fun token =>
    let l := pathLen guid token
    if 99 ≤ l then 0 else 1 / (1 + (l : ℚ)))).foldr max 0

/-- Spec: the cosine sub-term, with the undefined case (episode without an
embedding) treated as 0 per the spec's NaN/undefined rule. -/
def specCosTerm (sq : ℚ → ℚ) (queryEmbedding episodeEmbedding : List ℚ) : Fl :=
  if episodeEmbedding = [] then .fin 0
  else cosine_similarity sq queryEmbedding episodeEmbedding

/-- Spec: the fused score
`0.55·cosSim + 0.20·recency + 0.15·importance + 0.10·graphProximity`. -/
def specFusedScore (sq expQ : ℚ → ℚ) (pathLen : String → String → ℕ) (now : ℤ)
    (episode : EpisodeDict) (queryEmbedding : List ℚ)
    (tokens : List String) (guid : String) : Fl :=
  flAdd (flAdd (flAdd
    (flMul (.fin 0.55) (specCosTerm sq queryEmbedding episode.embedding))
    (flMul (.fin 0.2) (.fin (specRecency expQ now episode.metadata.timestamp))))
    (flMul (.fin 0.15) (.fin (specImportance episode.metadata))))
    (flMul (.fin 0.1) (.fin (specGraphProximity pathLen guid tokens)))

/-! ### Supporting lemmas for the scoring claims -/

/-- A self-dot-product is nonnegative. -/
theorem sumSq_nonneg (v : List ℚ) : 0 ≤ sumSq v := by
  unfold sumSq
  induction v with
  | nil => simp [dot]
  | cons a as_ ih =>
      show 0 ≤ a * a + dot as_ as_
      have h := mul_self_nonneg a
      linarith

/-- In `cosine_similarity`, a zero denominator forces a zero numerator: if a
vector's sum of squares is zero the vector is all zeros, so its dot product
with anything is zero.  This is what justifies omitting infinities from `Fl`. -/
theorem dot_self_eq_zero_imp (a b : List ℚ) (h : sumSq a = 0) : dot a b = 0 := by
  induction a generalizing b with
  | nil => cases b <;> rfl
  | cons x xs ih =>
      have hx : x * x + dot xs xs = 0 := h
      have hxs : sumSq xs = 0 := by
        have h1 := mul_self_nonneg x
        have h2 := sumSq_nonneg xs
        unfold sumSq at h2 ⊢
        linarith
      have hx0 : x = 0 := by
        have h1 := mul_self_nonneg x
        have h3 : dot xs xs = 0 := hxs
        have : x * x = 0 := by linarith
        exact mul_self_eq_zero.mp this
      cases b with
      | nil => rfl
      | cons y ys =>
          show x * y + dot xs ys = 0
          rw [hx0, ih ys hxs, zero_mul, add_zero]

/-- The graph term of `calculate_score` (a left fold of `max` seeded at 0)
equals the spec's "maximum over query tokens" (a right fold over the mapped
list), for any nonnegative per-token score. -/
theorem foldl_max_eq_foldr (f : String → ℚ) :
    ∀ (ts : List String) (a : ℚ), 0 ≤ a →
      ts.foldl (fun acc t => max acc (f t)) a = max a ((ts.map f).foldr max 0) := by
  intro ts
  induction ts with
  | nil =>
      intro a ha
      simp [max_eq_left ha]
  | cons t ts ih =>
      intro a ha
      have hb : 0 ≤ max a (f t) := le_trans ha (le_max_left _ _)
      show List.foldl (fun acc t => max acc (f t)) (max a (f t)) ts = _
      rw [ih (max a (f t)) hb]
      simp [List.foldr, max_assoc]

/-- A right fold of `max` seeded at 0 is nonnegative. -/
theorem foldr_max_nonneg (l : List ℚ) : 0 ≤ l.foldr max 0 := by
  induction l with
  | nil => simp
  | cons x xs ih => exact le_trans ih (by simp [List.foldr])

/-- The per-token proximity in the code (`if len < 99 then 1/(1+len) else 0`)
matches the spec's wording (`≥ 99 contributes 0`). -/
theorem graph_proximity_eq_spec (pathLen : String → String → ℕ) (guid t : String) :
    graph_proximity_score pathLen guid t =
      (let l := pathLen guid t; if 99 ≤ l then 0 else 1 / (1 + (l : ℚ))) := by
  unfold graph_proximity_score
  by_cases h : pathLen guid t < 99
  · simp [h, Nat.not_le.mpr h]
  · simp [h, Nat.le_of_not_lt h]

/-- The running maximum over tokens in `calculate_score` equals
`specGraphProximity`. -/
theorem graph_term_eq_spec (pathLen : String → String → ℕ) (guid : String)
    (tokens : List String) :
    tokens.foldl (fun acc token => max acc (graph_proximity_score pathLen guid token)) 0 =
      specGraphProximity pathLen guid tokens := by
  unfold specGraphProximity
  rw [foldl_max_eq_foldr (fun token => graph_proximity_score pathLen guid token) tokens 0 le_rfl]
  have hmap : tokens.map (fun token => graph_proximity_score pathLen guid token) =
      tokens.map (fun token =>
        let l := pathLen guid token
        if 99 ≤ l then 0 else 1 / (1 + (l : ℚ))) := by
    apply List.map_congr_left
    intro t _
    exact graph_proximity_eq_spec pathLen guid t
  rw [← hmap]
  exact max_eq_right (foldr_max_nonneg _)

/-- The code's recency (denominator `days*24*3600`, `days = 7`) equals the
spec's recency (denominator `7·86400`). -/
theorem recency_eq_spec (expQ : ℚ → ℚ) (now : ℤ) (ts : Option ℤ) :
    recency_score expQ now ts = specRecency expQ now ts := by
  cases ts with
  | none => rfl
  | some t =>
      show expQ (-((now - t : ℤ) : ℚ) / (7 * 24 * 3600)) =
        expQ (-((now - t : ℤ) : ℚ) / (7 * 86400))
      norm_num

/-- C1 — confirmed. For every episode candidate, the fused score computed by
`MemoryRetriever.calculate_score` equals the specification's formula
`0.55·cosSim + 0.20·recency(ts) + 0.15·importance + 0.10·graphProximity`,
with `recency(ts) = exp(-Δt/(7·86400))`, `importance = importanceValue ×
priorityMultiplier` (high 1.0, medium 0.5, low 0.2, default medium), and
`graphProximity` the maximum over query tokens of `1/(1+shortestPathLength)`
where a path length at or above the sentinel 99 contributes 0. -/
theorem calculate_score_eq_specFusedScore (sq expQ : ℚ → ℚ)
    (pathLen : String → String → ℕ) (now : ℤ) (episode : EpisodeDict)
    (queryEmbedding : List ℚ) (tokens : List String) (guid : String) :
    calculate_score sq expQ pathLen now episode queryEmbedding tokens guid =
      specFusedScore sq expQ pathLen now episode queryEmbedding tokens guid := by
  unfold calculate_score specFusedScore
  rw [graph_term_eq_spec, recency_eq_spec]
  have himp : importance_score episode.metadata = specImportance episode.metadata := rfl
  rw [himp]
  have hcos : (if episode.embedding ≠ [] then
        cosine_similarity sq queryEmbedding episode.embedding else .fin 0) =
      specCosTerm sq queryEmbedding episode.embedding := by
    unfold specCosTerm
    by_cases h : episode.embedding = []
    · simp [h]
    · simp [h]
  rw [hcos]

/-- Closed instance of `calculate_score_eq_specFusedScore` at concrete
inputs, with `Rat.sqrt` standing in for floating-point square root. -/
theorem calculate_score_eq_specFusedScore_witness :
    calculate_score Rat.sqrt (fun x => x) (fun _ _ => 3) 10
        ⟨[1, 2], ⟨some 5, some 1, some "high"⟩⟩ [1, 0] ["match"] "u1" =
      specFusedScore Rat.sqrt (fun x => x) (fun _ _ => 3) 10
        ⟨[1, 2], ⟨some 5, some 1, some "high"⟩⟩ [1, 0] ["match"] "u1" :=
  calculate_score_eq_specFusedScore Rat.sqrt (fun x => x) (fun _ _ => 3) 10
    ⟨[1, 2], ⟨some 5, some 1, some "high"⟩⟩ [1, 0] ["match"] "u1"

/-- C2 — code bug. An episode whose embedding is a nonempty all-zero vector
(exactly what a failed embedding chunk substitutes) makes
`np.dot/(norm·norm)` evaluate `0.0/0.0`, which in IEEE arithmetic is NaN and
raises no exception, so the `except` branch returning `0.0` never fires:
the cosine sub-term is NaN and the fused score returned by
`calculate_score` is NaN, contradicting the claim that every sub-term is a
real number and NaN is replaced by 0. -/
theorem calculate_score_nan_on_zero_embedding :
    cosine_similarity Rat.sqrt [0] [0] = Fl.nan ∧
      calculate_score Rat.sqrt (fun x => x) (fun _ _ => 99) 0
        ⟨[0], ⟨none, none, none⟩⟩ [0] [] "u1" = Fl.nan := by
  have hdot : dot ([0] : List ℚ) [0] = 0 := by simp [dot]
  have hsq : Rat.sqrt 0 = 0 := by simp [Rat.sqrt]
  have hcos : cosine_similarity Rat.sqrt [0] [0] = Fl.nan := by
    unfold cosine_similarity
    simp [sumSq, hdot, hsq, flDiv]
  refine ⟨hcos, ?_⟩
  unfold calculate_score
  simp only [hcos, flMul, flAdd]
  simp

/-! ## A small sorting helper

SQLite's `ORDER BY`, ChromaDB's ranking by distance and Python's `list.sort`
are modelled by insertion sort with a boolean comparator.  Only membership
properties of the sort are used by the proofs. -/

/-- Insert `x` before the first element `y` with `le x y`. -/
def insertSorted (le : α → α → Bool) (x : α) : List α → List α
  | [] => [x]
  | y :: ys => if le x y then x :: y :: ys else y :: insertSorted le x ys

/-- Insertion sort by a boolean comparator. -/
def sortBy (le : α → α → Bool) (xs : List α) : List α :=
  xs.foldr (insertSorted le) []

theorem mem_insertSorted (le : α → α → Bool) (x a : α) (l : List α) :
    a ∈ insertSorted le x l ↔ a = x ∨ a ∈ l := by
  induction l with
  | nil => simp [insertSorted]
  | cons y ys ih =>
      unfold insertSorted
      by_cases h : le x y
      · simp [h]
      · simp [h, ih]
        tauto

theorem mem_sortBy (le : α → α → Bool) (a : α) (xs : List α) :
    a ∈ sortBy le xs ↔ a ∈ xs := by
  induction xs with
  | nil => simp [sortBy]
  | cons x l ih =>
      show a ∈ insertSorted le x (sortBy le l) ↔ _
      rw [mem_insertSorted]
      simp [ih]

/-! ## The fact store (`src/app/stores/kv_sqlite.py`)

`SQLiteKVStore`: the `facts` table has `PRIMARY KEY (guid, key)`, so
`INSERT OR REPLACE` removes any row with the same `(guid, key)` before
inserting.  The table is modelled as a list of rows. -/

/-- A row of the `facts` table. -/
structure FactRow where
  guid : String
  key : String
  value : String
  confidence : ℚ
  source : String
  ts : String
deriving DecidableEq

/-- Model of `SQLiteKVStore.upsert_fact` (the success path of its `try`):
`INSERT OR REPLACE` keyed by `(guid, key)`. -/
def upsert_fact (db : List FactRow) (r : FactRow) : List FactRow :=
  r :: db.filter (fun x => !(x.guid = r.guid && x.key = r.key))

/-- The dictionary shape returned by `SQLiteKVStore.get_facts`
(`key, value, confidence, source, ts` — no guid column is selected). -/
structure FactOut where
  key : String
  value : String
  confidence : ℚ
  source : String
  ts : String
deriving DecidableEq

/-- Projection of a selected row onto the returned dictionary. -/
def FactRow.toOut (r : FactRow) : FactOut :=
  ⟨r.key, r.value, r.confidence, r.source, r.ts⟩

/-- The `ORDER BY confidence DESC, ts DESC` comparator (ISO timestamp strings
compare lexicographically). -/
def factOrd (a b : FactOut) : Bool :=
  if a.confidence = b.confidence then decide (b.ts ≤ a.ts)
  else decide (b.confidence ≤ a.confidence)

/-- Model of `SQLiteKVStore.get_facts` (the success path of its `try`):
`SELECT key, value, confidence, source, ts FROM facts WHERE guid = ? AND
confidence >= ? ORDER BY confidence DESC, ts DESC`. -/
def get_facts (db : List FactRow) (guid : String) (min_conf : ℚ) : List FactOut :=
  sortBy factOrd
    ((db.filter (fun r => r.guid = guid && decide (min_conf ≤ r.confidence))).map FactRow.toOut)

/-- Model of `SQLiteKVStore.delete_fact` (success path): removes the `(guid, key)` row
and reports whether a row was removed. -/
def delete_fact (db : List FactRow) (guid key : String) : List FactRow × Bool :=
  (db.filter (fun r => !(r.guid = guid && r.key = key)),
   db.any (fun r => r.guid = guid && r.key = key))

/-- Every fact returned by `get_facts db guid m` is the projection of a table
row owned by `guid` whose confidence is at least `m`. -/
theorem get_facts_owner (db : List FactRow) (guid : String) (m : ℚ) (f : FactOut)
    (hf : f ∈ get_facts db guid m) :
    ∃ r ∈ db, r.guid = guid ∧ m ≤ r.confidence ∧ f = r.toOut := by
  unfold get_facts at hf
  rw [mem_sortBy] at hf
  rcases List.mem_map.mp hf with ⟨r, hr, hout⟩
  rcases List.mem_filter.mp hr with ⟨hrdb, hcond⟩
  refine ⟨r, hrdb, ?_, ?_, hout.symm⟩
  · have := (Bool.and_eq_true _ _).mp hcond
    exact of_decide_eq_true (by simpa using this.1)
  · have := (Bool.and_eq_true _ _).mp hcond
    exact of_decide_eq_true this.2

/-- C5 — confirmed. Upserting a fact for the same `(owner, key)` pair twice
with different values leaves exactly one stored row for that pair, carrying
the value, confidence, source and timestamp of the second upsert, and a
subsequent `get_facts` for that owner reflects only the latest value. -/
theorem upsert_fact_last_write_wins (db : List FactRow)
    (g k v1 v2 s1 s2 t1 t2 : String) (c1 c2 m : ℚ) :
    (upsert_fact (upsert_fact db ⟨g, k, v1, c1, s1, t1⟩) ⟨g, k, v2, c2, s2, t2⟩).filter
        (fun r => r.guid = g && r.key = k) = [⟨g, k, v2, c2, s2, t2⟩] ∧
    ∀ f ∈ get_facts (upsert_fact (upsert_fact db ⟨g, k, v1, c1, s1, t1⟩)
        ⟨g, k, v2, c2, s2, t2⟩) g m, f.key = k → f.value = v2 := by
  constructor
  · unfold upsert_fact
    simp [List.filter_cons, List.filter_filter]
  · intro f hf hk
    rcases get_facts_owner _ _ _ _ hf with ⟨r, hrdb, hg, _hc, hout⟩
    unfold upsert_fact at hrdb
    rcases List.mem_cons.mp hrdb with h2 | h2
    · rw [hout, h2]
      rfl
    · exfalso
      have h3 := List.mem_filter.mp h2
      have hkey : r.key = k := by rw [hout] at hk; exact hk
      have h4 : (!(decide (r.guid = g) && decide (r.key = k))) = true := h3.2
      simp [hg, hkey] at h4

/-- Closed instance of `upsert_fact_last_write_wins`: upserting
`(u1, plan) ↦ A` then `(u1, plan) ↦ B` leaves one row holding `B`. -/
theorem upsert_fact_last_write_wins_witness :
    (upsert_fact (upsert_fact [] ⟨"u1", "plan", "A", 0.9, "email", "t1"⟩)
        ⟨"u1", "plan", "B", 0.8, "email", "t2"⟩).filter
        (fun r => r.guid = "u1" && r.key = "plan") =
      [⟨"u1", "plan", "B", 0.8, "email", "t2"⟩] ∧
    ∀ f ∈ get_facts (upsert_fact (upsert_fact [] ⟨"u1", "plan", "A", 0.9, "email", "t1"⟩)
        ⟨"u1", "plan", "B", 0.8, "email", "t2"⟩) "u1" 0.6,
      f.key = "plan" → f.value = "B" :=
  upsert_fact_last_write_wins [] "u1" "plan" "A" "B" "email" "email" "t1" "t2" 0.9 0.8 0.6

/-! ## The episode store (`src/app/stores/vector_chroma.py`)

`ChromaVectorStore`: the `episodes_mem` collection is modelled as a list of
stored episodes.  `upsert_episode` stamps the metadata with the owner guid
and the current time; `query_similar` embeds the query, filters by guid and
(when truthy) by the `since_days` window, ranks by embedding distance and
returns at most `k` results — results carry `id`, `text`, `metadata`,
`distance` and `similarity` but no `embedding` key. -/

/-- An episode as stored in the ChromaDB collection: its id, the owner guid
and write-time timestamp stamped into the metadata by `upsert_episode`, the
importance carried in the caller's metadata, the document text and the
embedding. -/
structure StoredEp where
  id : String
  guid : String
  text : String
  tsSec : ℤ
  importance : ℚ
  embedding : List ℚ
deriving DecidableEq

/-- The dictionary shape `query_similar` returns for one episode.  Note the
absence of an `embedding` field, mirroring the code. -/
structure EpisodeResult where
  id : String
  text : String
  metadata : Metadata
  distance : ℚ
  similarity : ℚ
deriving DecidableEq

/-- Formatting of one stored episode into a `query_similar` result:
`distance` from the collection's ranking, `similarity = 1 - distance`. -/
def StoredEp.toResult (dist : List ℚ → List ℚ → ℚ) (qe : List ℚ) (e : StoredEp) :
    EpisodeResult :=
  ⟨e.id, e.text, ⟨some e.tsSec, some e.importance, none⟩,
   dist qe e.embedding, 1 - dist qe e.embedding⟩

/-- The `since_days` window filter of `query_similar`: Python's
`if since_days:` treats both `None` and `0` as "no filter"; otherwise the
metadata timestamp must be at or after `now - since_days` days. -/
def sinceFilter (sinceDays : Option ℕ) (now : ℤ) (e : StoredEp) : Bool :=
  match sinceDays with
  | none => true
  | some d => if d = 0 then true else decide (now - (d : ℤ) * 86400 ≤ e.tsSec)

/-- Model of `ChromaVectorStore.query_similar` (success path): embed the query (the
result `qembs` of `titan_embed([query])` is a parameter; an empty result
returns `[]`), filter the collection by guid and window, rank by distance to
the query embedding, keep at most `k`, and format. -/
def query_similar (dist : List ℚ → List ℚ → ℚ) (store : List StoredEp)
    (qembs : List (List ℚ)) (guid : String) (k : ℕ) (sinceDays : Option ℕ)
    (now : ℤ) : List EpisodeResult :=
  match qembs with
  | [] => []
  | qe :: _ =>
      let filtered := store.filter (fun e => e.guid = guid && sinceFilter sinceDays now e)
      ((sortBy (fun a b => decide (dist qe a.embedding ≤ dist qe b.embedding))
          filtered).take k).map (StoredEp.toResult dist qe)

/-- Model of `ChromaVectorStore.delete_by_ids` (success path). -/
def delete_by_ids (store : List StoredEp) (ids : List String) : List StoredEp :=
  store.filter (fun e => !(ids.contains e.id))

/-- Every result of `query_similar` is the formatting of a stored episode
owned by the queried guid that passed the window filter. -/
theorem query_similar_mem (dist : List ℚ → List ℚ → ℚ) (store : List StoredEp)
    (qembs : List (List ℚ)) (guid : String) (k : ℕ) (sinceDays : Option ℕ)
    (now : ℤ) (r : EpisodeResult)
    (hr : r ∈ query_similar dist store qembs guid k sinceDays now) :
    ∃ e ∈ store, e.guid = guid ∧ sinceFilter sinceDays now e = true ∧
      ∃ qe, r = e.toResult dist qe := by
  match qembs with
  | [] => exact absurd hr (by simp [query_similar])
  | qe :: rest =>
      unfold query_similar at hr
      rcases List.mem_map.mp hr with ⟨e, he, hres⟩
      have he2 : e ∈ sortBy (fun a b =>
          decide (dist qe a.embedding ≤ dist qe b.embedding))
          (store.filter (fun e => e.guid = guid && sinceFilter sinceDays now e)) :=
        List.take_subset _ _ he
      rw [mem_sortBy] at he2
      rcases List.mem_filter.mp he2 with ⟨hedb, hcond⟩
      rcases (Bool.and_eq_true _ _).mp hcond with ⟨hguid, hsince⟩
      exact ⟨e, hedb, of_decide_eq_true hguid, hsince, qe, hres.symm⟩

/-- After `delete_by_ids`, no surviving episode carries a deleted id. -/
theorem delete_by_ids_mem (store : List StoredEp) (ids : List String)
    (e : StoredEp) (he : e ∈ delete_by_ids store ids) :
    e ∈ store ∧ e.id ∉ ids := by
  rcases List.mem_filter.mp he with ⟨hdb, hcond⟩
  refine ⟨hdb, ?_⟩
  intro habs
  rw [Bool.not_eq_true', ← Bool.not_eq_true] at hcond
  exact hcond (List.elem_eq_true_of_mem habs)

/-! ## The graph store (`src/app/stores/graph_neo4j.py`)

`Neo4jGraphStore.upsert_entity` runs `MERGE (e:Entity {name: $name, type:
$type})`: a node is reused only when **both** properties match exactly — no
lower-casing and no space normalization happen anywhere on the write path
(`MemoryService.write_memory` passes `entity["name"]` and `entity["type"]`
through unchanged).  The entity set is modelled as a list of
`(name, type)` pairs in insertion order. -/

/-- Model of `Neo4jGraphStore.upsert_entity` (success path): `MERGE` on the exact
`(name, type)` pair. -/
def upsert_entity (st : List (String × String)) (name entity_type : String) :
    List (String × String) :=
  if (name, entity_type) ∈ st then st else st ++ [(name, entity_type)]

/-- The identity key the specification mandates:
`lowercase(type) + ":" + lowercase(name).replace(" ", "_")`.  Python's
`str.lower` and single-character `str.replace` are modelled per character
over the string's character list. -/
def identityKey (entity_type name : String) : String :=
  ⟨entity_type.data.map Char.toLower⟩ ++ ":" ++
    ⟨(name.data.map Char.toLower).map (fun c => if c = ' ' then '_' else c)⟩

/-- C7 — counterexample. Two write-path entities whose names differ only in
letter case have the same spec identity key, yet `upsert_entity` stores them
as two distinct nodes: the relation store merges on the exact `(name, type)`
pair, not on the normalized identity key. -/
theorem upsert_entity_no_normalization_counterexample :
    identityKey "Org" "Acme Corp" = identityKey "Org" "acme corp" ∧
      (upsert_entity (upsert_entity [] "Acme Corp" "Org") "acme corp" "Org").length = 2 := by
  constructor
  · decide
  · decide

/-- C7 — corrected. `upsert_entity` merges exactly on the bit-equal
`(name, type)` pair: upserting a pair already present leaves the store
unchanged, and upserting a new pair appends exactly that raw pair — no
lowercase/underscore identity-key normalization is applied on the write
path. -/
theorem upsert_entity_merges_on_exact_pair (st : List (String × String))
    (name entity_type : String) :
    ((name, entity_type) ∈ st → upsert_entity st name entity_type = st) ∧
    ((name, entity_type) ∉ st →
      upsert_entity st name entity_type = st ++ [(name, entity_type)]) := by
  constructor
  · intro h
    unfold upsert_entity
    simp [h]
  · intro h
    unfold upsert_entity
    simp [h]

/-- Closed instance of `upsert_entity_merges_on_exact_pair`: re-upserting the
identical pair merges; a case-variant pair appends a second node. -/
theorem upsert_entity_merges_on_exact_pair_witness :
    (("Acme Corp", "Org") ∈ ([("Acme Corp", "Org")] : List (String × String)) →
      upsert_entity [("Acme Corp", "Org")] "Acme Corp" "Org" = [("Acme Corp", "Org")]) ∧
    (("Acme Corp", "Org") ∉ ([("Acme Corp", "Org")] : List (String × String)) →
      upsert_entity [("Acme Corp", "Org")] "Acme Corp" "Org" =
        [("Acme Corp", "Org")] ++ [("Acme Corp", "Org")]) :=
  upsert_entity_merges_on_exact_pair [("Acme Corp", "Org")] "Acme Corp" "Org"

/-! ## The extractor (`src/app/memory/extractor.py`)

`MemoryExtractor.extract_structured` and `extract_triples`: after the
reasoning output parses as JSON, items are filtered.  Parsed items are
dictionaries, so every key the parse does not guarantee is an `Option`
(`none` = absent): a confidence or importance read with `.get(key, 0)`
defaults to 0, while a direct `item["key"]` access downstream raises
`KeyError`.  Two fields are typed as present because the filters force them:
an entity survives `filter_entities` only if its `type` is one of the valid
type strings, and a triple survives `filter_triples` only if its `predicate`
is one of the valid predicate strings, so `.get` cannot have returned `None`
for those. -/

/-- A parsed fact item: `{key?, value?, confidence?}` — the filter checks
only `confidence`, so `key` and `value` may be absent in a filter-surviving
item. -/
structure RawFact where
  key : Option String
  value : Option String
  confidence : Option ℚ
deriving DecidableEq

/-- A parsed episode item: `{summary?, importance?, tags}` — the filter
checks only `importance`; `tags` is always read with `.get("tags", [])`, so
an absent key behaves as `[]`. -/
structure RawEpisode where
  summary : Option String
  importance : Option ℚ
  tags : List String
deriving DecidableEq

/-- A parsed entity item: `{name?, type, confidence?}` — the extraction
prompt's entity schema has no confidence field, so `confidence` is typically
absent; `type` is present in every filter-surviving entity (see the section
comment). -/
structure RawEntity where
  name : Option String
  etype : String
  confidence : Option ℚ
deriving DecidableEq

/-- A parsed triple item: `{subject?, predicate, object?, confidence?,
time?}` — `predicate` is present in every filter-surviving triple (see the
section comment). -/
structure RawTriple where
  subject : Option String
  predicate : String
  obj : Option String
  confidence : Option ℚ
  time : Option String
deriving DecidableEq

/-- The `valid_types` set of `extract_triples`. -/
def valid_types : List String :=
  ["Person", "Place", "DateRange", "Preference", "Task", "Product", "Org", "Event"]

/-- The `valid_predicates` set of `extract_triples`. -/
def valid_predicates : List String :=
  ["PREFERS", "PLANS", "OCCURS_ON", "HAS_SIZE", "HAS_ROLE", "MENTIONS", "RELATED_TO"]

/-- Model of `extract_structured`'s fact filter:
`f.get("confidence", 0) >= self.confidence_threshold`. -/
def filter_facts (thr : ℚ) (facts : List RawFact) : List RawFact :=
  facts.filter (fun f => decide (thr ≤ f.confidence.getD 0))

/-- Model of `extract_structured`'s episode filter:
`e.get("importance", 0) >= self.confidence_threshold`. -/
def filter_episodes (thr : ℚ) (episodes : List RawEpisode) : List RawEpisode :=
  episodes.filter (fun e => decide (thr ≤ e.importance.getD 0))

/-- Model of `extract_triples`'s entity filter:
`e.get("type") in valid_types and e.get("confidence", 0) >= self.confidence_threshold`. -/
def filter_entities (thr : ℚ) (entities : List RawEntity) : List RawEntity :=
  entities.filter (fun e => valid_types.contains e.etype && decide (thr ≤ e.confidence.getD 0))

/-- Model of `extract_triples`'s triple filter:
`t.get("predicate") in valid_predicates and t.get("confidence", 0) >= self.confidence_threshold`. -/
def filter_triples (thr : ℚ) (triples : List RawTriple) : List RawTriple :=
  triples.filter (fun t =>
    valid_predicates.contains t.predicate && decide (thr ≤ t.confidence.getD 0))

/-- C8 — counterexample. An entity with the valid type `Person` but no
confidence field (the extraction prompt's entity schema `{name, type,
aliases?}` carries none) is dropped by `filter_entities`, because the filter
also requires `e.get("confidence", 0) >= threshold` and the default 0 is
below 0.6.  So an entity is *not* dropped "if and only if its type is
outside the 8-value set". -/
theorem filter_entities_confidence_counterexample :
    "Person" ∈ valid_types ∧
      filter_entities 0.6 [⟨some "Alice", "Person", none⟩] = [] := by
  constructor
  · decide
  · unfold filter_entities
    simp only [List.filter_cons, List.filter_nil]
    norm_num

/-- C8 — corrected. The extractor's filters keep: facts iff confidence
(default 0) is at least the threshold; episodes iff importance (default 0)
is at least the threshold; entities iff the type is in the fixed 8-value set
**and** confidence (default 0, though the entity schema carries no
confidence) is at least the threshold; triples iff the predicate is in the
fixed 7-value enum and confidence (default 0) is at least the threshold. -/
theorem extractor_filters_spec (thr : ℚ) (facts : List RawFact)
    (episodes : List RawEpisode) (entities : List RawEntity)
    (triples : List RawTriple) :
    (∀ f, f ∈ filter_facts thr facts ↔ f ∈ facts ∧ thr ≤ f.confidence.getD 0) ∧
    (∀ e, e ∈ filter_episodes thr episodes ↔ e ∈ episodes ∧ thr ≤ e.importance.getD 0) ∧
    (∀ en, en ∈ filter_entities thr entities ↔
      en ∈ entities ∧ en.etype ∈ valid_types ∧ thr ≤ en.confidence.getD 0) ∧
    (∀ tr, tr ∈ filter_triples thr triples ↔
      tr ∈ triples ∧ tr.predicate ∈ valid_predicates ∧ thr ≤ tr.confidence.getD 0) := by
  refine ⟨?_, ?_, ?_, ?_⟩
  · intro f
    simp [filter_facts, List.mem_filter]
  · intro e
    simp [filter_episodes, List.mem_filter]
  · intro en
    simp [filter_entities, List.mem_filter, List.elem_iff, and_assoc]
  · intro tr
    simp [filter_triples, List.mem_filter, List.elem_iff, and_assoc]

/-! ## The embedding gateway (`src/app/core/bedrock.py`)

`BedrockClient.titan_embed`: the input list is processed in chunks of
`settings.max_embedding_chunk_size`.  Each chunk's Bedrock call (wrapped in
`_retry_with_backoff`) is modelled by an oracle indexed by chunk number:
`success v` means some attempt returned embeddings `v`, `failure` means the
final attempt raised (the re-raised `ClientError`, or any other exception,
both of which land in the chunk's `except` branch). -/

/-- Outcome of the Bedrock call for one chunk. -/
inductive ChunkOutcome where
  | success (embeddings : List (List ℚ))
  | failure
deriving DecidableEq

/-- Outcome of `_retry_with_backoff` for one chunk: the returned value, a
raised exception, or `None` — the loop body never runs when
`max_retries = 0`, and the function falls through to `return None`. -/
inductive RetryOutcome where
  | value (v : List (List ℚ))
  | raised
  | silentNone
deriving DecidableEq

/-- Model of `BedrockClient._retry_with_backoff`, collapsed over attempts: with a
positive retry budget the call's outcome is observed; with a zero budget the
function silently returns `None`. -/
def retry_with_backoff (max_retries : ℕ) (call : ChunkOutcome) : RetryOutcome :=
  if max_retries = 0 then .silentNone
  else match call with
    | .success v => .value v
    | .failure => .raised

/-- The zero-vector substituted for each text of a failed chunk:
`[0.0] * 1536`. -/
def zero_embedding : List ℚ := List.replicate 1536 0

/-- The chunking `range(0, len(texts), chunk_size)` with slices
`texts[i:i+chunk_size]`.  A zero step makes Python's `range` raise; here it
yields no chunks (the claims assume a positive chunk size). -/
def chunksOf (c : ℕ) (xs : List α) : List (List α) :=
  match xs with
  | [] => []
  | x :: rest =>
      if h : c = 0 then []
      else (x :: rest).take c :: chunksOf c ((x :: rest).drop c)
termination_by xs.length
decreasing_by
  simp only [List.length_drop, List.length_cons]
  exact Nat.sub_lt (Nat.succ_pos _) (Nat.pos_of_ne_zero h)

/-- The body of `titan_embed`'s chunk loop, accumulating `all_embeddings`:
a returned value is appended only when truthy (`if chunk_embeddings:`), an
exception appends one `zero_embedding` per text of the chunk, and a silent
`None` appends nothing. -/
def titanGo (oracle : ℕ → ChunkOutcome) (max_retries : ℕ) :
    ℕ → List (List String) → List (List ℚ)
  | _, [] => []
  | i, chunk :: rest =>
      (match retry_with_backoff max_retries (oracle i) with
        | .value v => if v.isEmpty then [] else v
        | .raised => List.replicate chunk.length zero_embedding
        | .silentNone => []) ++ titanGo oracle max_retries (i + 1) rest

/-- Model of `BedrockClient.titan_embed`: empty input short-circuits to `[]`;
otherwise the chunks are processed in order. -/
def titan_embed (oracle : ℕ → ChunkOutcome) (max_retries chunk_size : ℕ)
    (texts : List String) : List (List ℚ) :=
  if texts = [] then []
  else titanGo oracle max_retries 0 (chunksOf chunk_size texts)

/-- The specification's per-chunk contract, written from the spec's words:
each successful chunk contributes its embeddings, each failed chunk
contributes one zero-vector per input text in that chunk — never a shortened
result. -/
def titanSpec (oracle : ℕ → ChunkOutcome) : ℕ → List (List String) → List (List ℚ)
  | _, [] => []
  | i, chunk :: rest =>
      (match oracle i with
        | .success v => v
        | .failure => List.replicate chunk.length zero_embedding) ++
        titanSpec oracle (i + 1) rest

/-- With a positive chunk size, the chunks concatenate back to the input. -/
theorem chunksOf_flatten (c : ℕ) (hc : 0 < c) (xs : List α) :
    (chunksOf c xs).flatten = xs := by
  induction xs using chunksOf.induct c with
  | case1 => simp [chunksOf]
  | case2 x rest h =>
      exact absurd h (Nat.pos_iff_ne_zero.mp hc)
  | case3 x rest h ih =>
      have hstep : chunksOf c (x :: rest) =
          (x :: rest).take c :: chunksOf c ((x :: rest).drop c) := by
        rw [chunksOf]
        simp [h]
      rw [hstep, List.flatten_cons, ih, List.take_append_drop]

/-- With any chunk size, every chunk is nonempty. -/
theorem chunksOf_ne_nil (c : ℕ) (xs : List α) (ch : List α)
    (hch : ch ∈ chunksOf c xs) : ch ≠ [] := by
  induction xs using chunksOf.induct c with
  | case1 => exact absurd hch (by simp [chunksOf])
  | case2 x rest h =>
      rw [chunksOf] at hch
      simp [h] at hch
  | case3 x rest h ih =>
      rw [chunksOf] at hch
      simp only [h, reduceDIte] at hch
      rcases List.mem_cons.mp hch with h1 | h1
      · subst h1
        simp [List.take_eq_nil_iff, h]
      · exact ih h1

/-- With a positive retry budget and chunk calls that return one embedding
per chunk text, `titanGo` matches the spec's per-chunk contract. -/
theorem titanGo_eq_titanSpec (oracle : ℕ → ChunkOutcome) (mr : ℕ) (hmr : 0 < mr) :
    ∀ (chunks : List (List String)) (i0 : ℕ),
      (∀ ch ∈ chunks, ch ≠ []) →
      (∀ j v, oracle (i0 + j) = .success v → v.length = (chunks.getD j []).length) →
      titanGo oracle mr i0 chunks = titanSpec oracle i0 chunks := by
  intro chunks
  induction chunks with
  | nil => intro i0 _ _; rfl
  | cons ch rest ih =>
      intro i0 hne hok
      have hmr2 : mr ≠ 0 := Nat.pos_iff_ne_zero.mp hmr
      have htail : titanGo oracle mr (i0 + 1) rest = titanSpec oracle (i0 + 1) rest := by
        apply ih
        · intro c hc
          exact hne c (List.mem_cons_of_mem _ hc)
        · intro j v hv
          have := hok (j + 1) v (by rw [← hv]; ring_nf)
          simpa using this
      rw [titanGo, titanSpec, htail]
      unfold retry_with_backoff
      rw [if_neg hmr2]
      cases horacle : oracle i0 with
      | success v =>
          have hv : v.length = ch.length := by
            have := hok 0 v (by simpa using horacle)
            simpa using this
          have hch : ch ≠ [] := hne ch (List.mem_cons_self _ _)
          have hvne : ¬ v.isEmpty = true := by
            rw [List.isEmpty_iff]
            intro habs
            rw [habs] at hv
            exact hch (List.eq_nil_of_length_eq_zero hv.symm)
          simp [hvne]
      | failure => rfl

/-- The spec contract's output length is the total chunk length, given chunk
calls that return one embedding per chunk text. -/
theorem titanSpec_length (oracle : ℕ → ChunkOutcome) :
    ∀ (chunks : List (List String)) (i0 : ℕ),
      (∀ j v, oracle (i0 + j) = .success v → v.length = (chunks.getD j []).length) →
      (titanSpec oracle i0 chunks).length = (chunks.map List.length).sum := by
  intro chunks
  induction chunks with
  | nil => intro i0 _; rfl
  | cons ch rest ih =>
      intro i0 hok
      rw [titanSpec, List.length_append]
      have htail : (titanSpec oracle (i0 + 1) rest).length = (rest.map List.length).sum := by
        apply ih
        intro j v hv
        have := hok (j + 1) v (by rw [← hv]; ring_nf)
        simpa using this
      rw [htail]
      cases horacle : oracle i0 with
      | success v =>
          have hv : v.length = ch.length := by
            have := hok 0 v (by simpa using horacle)
            simpa using this
          simp [hv]
      | failure => simp

/-- C4 — confirmed. With a positive retry budget and chunk size, and chunk
calls returning one embedding per chunk text, `titan_embed` returns exactly
one vector per input text — its output length equals the input length no
matter how many chunks fail — and equals the spec's per-chunk contract in
which every failed chunk contributes one `zero_embedding` per text of that
chunk, never a shortened result. -/
theorem titan_embed_length_eq_input (oracle : ℕ → ChunkOutcome)
    (mr c : ℕ) (texts : List String) (hmr : 0 < mr) (hc : 0 < c)
    (hok : ∀ j v, oracle j = .success v →
      v.length = ((chunksOf c texts).getD j []).length) :
    (titan_embed oracle mr c texts).length = texts.length ∧
      titan_embed oracle mr c texts = titanSpec oracle 0 (chunksOf c texts) := by
  have hok0 : ∀ j v, oracle (0 + j) = .success v →
      v.length = ((chunksOf c texts).getD j []).length := by
    intro j v hv
    exact hok j v (by simpa using hv)
  have hne : ∀ ch ∈ chunksOf c texts, ch ≠ [] := fun ch hch => chunksOf_ne_nil c texts ch hch
  have hmain : titan_embed oracle mr c texts = titanSpec oracle 0 (chunksOf c texts) := by
    unfold titan_embed
    by_cases htexts : texts = []
    · subst htexts
      rw [if_pos rfl]
      simp [chunksOf, titanSpec]
    · rw [if_neg htexts]
      exact titanGo_eq_titanSpec oracle mr hmr (chunksOf c texts) 0 hne hok0
  refine ⟨?_, hmain⟩
  rw [hmain, titanSpec_length oracle (chunksOf c texts) 0 hok0]
  have hlen := List.length_flatten (chunksOf c texts)
  rw [← hlen, chunksOf_flatten c hc texts]

/-- The chunk-call oracle of the `titan_embed` witness: chunk 0 fails, chunk
1 returns one embedding (its chunk holds one text), later indexes are never
consulted. -/
def titanWitnessOracle : ℕ → ChunkOutcome :=
  fun i => if i = 1 then .success [[5]] else .failure

/-- Closed instance of `titan_embed_length_eq_input`: three texts in chunks
of two, the first chunk failing, still yield three vectors. -/
theorem titan_embed_length_eq_input_witness :
    (titan_embed titanWitnessOracle 3 2 ["a", "b", "c"]).length = 3 ∧
      titan_embed titanWitnessOracle 3 2 ["a", "b", "c"] =
        titanSpec titanWitnessOracle 0 (chunksOf 2 ["a", "b", "c"]) := by
  have hok : ∀ j v, titanWitnessOracle j = .success v →
      v.length = ((chunksOf 2 ["a", "b", "c"]).getD j []).length := by
    intro j v hv
    unfold titanWitnessOracle at hv
    by_cases hj : j = 1
    · subst hj
      simp only [if_pos rfl] at hv
      have hv2 : ([[5]] : List (List ℚ)) = v := ChunkOutcome.success.inj hv
      rw [← hv2]
      simp [chunksOf]
    · rw [if_neg hj] at hv
      exact absurd hv (by simp)
  exact titan_embed_length_eq_input titanWitnessOracle 3 2 ["a", "b", "c"]
    (by norm_num) (by norm_num) hok

/-! ## The memory service (`src/app/memory/service.py`)

`MemoryService.write_memory / search_memory / forget_memory`, modelled over
the store states above.  The reasoning gateway (`claude_complete`) is an
oracle returning `none` on failure; `BedrockClient.claude_complete` catches
every exception and returns `""`, modelled by `Option.getD ""`. -/

/-- A graph hit in `search_memory`'s results: either a path record from
`Neo4jGraphStore.find_paths` (`{length, nodes, relationships}`) or the
fallback entry synthesized from the fact count (`{path, length, reasoning}`). -/
inductive GraphHit where
  | pathHit (length : ℕ) (nodes : List String) (relationships : List String)
  | factsFallback (path : String) (length : ℕ) (reasoning : String)
deriving DecidableEq

/-- An episode result carrying the fused score `episode["score"]` assigned in
`search_memory`. -/
structure ScoredEpisode where
  id : String
  text : String
  metadata : Metadata
  distance : ℚ
  similarity : ℚ
  score : Fl
deriving DecidableEq

/-- Attaching the fused score to a `query_similar` result. -/
def EpisodeResult.withScore (e : EpisodeResult) (s : Fl) : ScoredEpisode :=
  ⟨e.id, e.text, e.metadata, e.distance, e.similarity, s⟩

/-- The `context_data` payload `MemoryRetriever.build_context_card`
serializes into its single reasoning call. -/
structure ContextData where
  query : String
  facts : List FactOut
  episodes : List ScoredEpisode
  graph_hits : List GraphHit
deriving DecidableEq

/-- Model of `MemoryRetriever.build_context_card`: assembles `context_data` with the
top-5 facts, the top-**3** episodes and the top-3 graph hits, and issues one
reasoning call on it.  The returned pair is the call's payload (the
observation of the unique reasoning call) and the context card; a failed or
empty completion yields `""` (`claude_complete` catches every exception). -/
def build_context_card (claude : ContextData → Option String)
    (facts : List FactOut) (episodes : List ScoredEpisode)
    (graph_hits : List GraphHit) (query : String) : ContextData × String :=
  let context_data : ContextData := ⟨query, facts.take 5, episodes.take 3, graph_hits.take 3⟩
  (context_data, (claude context_data).getD "")

/-- Model of `query.lower().split()`: lower-case, split on spaces, drop empty pieces. -/
def tokenize (query : String) : List String :=
  ((⟨query.data.map Char.toLower⟩ : String).splitOn " ").filter (fun s => !s.isEmpty)

/-- The external collaborators `search_memory` consults, as oracles. -/
structure SearchEnv where
  embed : String → List (List ℚ)
  dist : List ℚ → List ℚ → ℚ
  sq : ℚ → ℚ
  expQ : ℚ → ℚ
  pathLen : String → String → ℕ
  findPaths : String → String → ℕ → List GraphHit
  claude : ContextData → Option String
  now : ℤ

/-- A search request: `guid` and `query` are required, the rest default
(`k = 8`, `since_days = 30`, `include_graph = True`). -/
structure SearchReq where
  guid : String
  query : String
  k : Option ℕ
  since_days : Option ℕ
  include_graph : Option Bool

/-- The success envelope of `search_memory`.  `ctxInput` records the payload
of the single reasoning call made for the context card. -/
structure SearchResult where
  success : Bool
  context_card : String
  facts : List FactOut
  episodes : List ScoredEpisode
  graph_hits : List GraphHit
  rationale : String
  ctxInput : ContextData

/-- Model of `MemoryService.search_memory` (success path), translated step by step:
query the vector store (filtered by guid and `since_days`), read facts at
confidence ≥ 0.6, embed the query, score and sort the episodes descending
(note: `query_similar` results carry no `embedding` key, so
`episode.get("embedding", [])` is `[]` here), collect graph paths per token
and for the full query with the fact-count fallback, and build the context
card from the top-5 scored episodes (of which `build_context_card` keeps 3). -/
def search_memory (env : SearchEnv) (kvdb : List FactRow) (vstore : List StoredEp)
    (req : SearchReq) : SearchResult :=
  let guid := req.guid
  let query := req.query
  let k := req.k.getD 8
  let since_days := req.since_days.getD 30
  let include_graph := req.include_graph.getD true
  let episodes := query_similar env.dist vstore (env.embed query) guid k (some since_days) env.now
  let facts := get_facts kvdb guid 0.6
  let query_embeddings := env.embed query
  let query_embedding := query_embeddings.headD []
  let query_tokens := tokenize query
  let scored_episodes := episodes.map (fun e =>
    e.withScore (calculate_score env.sq env.expQ env.pathLen env.now
      ⟨[], e.metadata⟩ query_embedding query_tokens guid))
  let sorted := sortBy (fun a b => flLeB b.score a.score) scored_episodes
  let graph_hits :=
    if include_graph then
      let hits := (query_tokens.map (fun token => env.findPaths guid token 3)).flatten ++
        env.findPaths guid query 3
      if hits.isEmpty && !facts.isEmpty then
        [GraphHit.factsFallback ("User -> Facts -> " ++ query) 2
          ("Found " ++ toString facts.length ++ " relevant facts about " ++ query)]
      else hits
    else []
  let bcc := build_context_card env.claude facts (sorted.take 5) graph_hits query
  { success := true
    context_card := bcc.2
    facts := facts
    episodes := sorted
    graph_hits := graph_hits
    rationale := "Found " ++ toString sorted.length ++ " episodes, " ++
      toString facts.length ++ " facts, " ++ toString graph_hits.length ++ " graph paths"
    ctxInput := bcc.1 }

/-- One attempted store call of the write fan-out, with its payload and the
boolean the adapter returned (`false` = the adapter caught and logged an
internal failure).  `write_memory` never reads these booleans. -/
inductive StoreCall where
  | kvUpsertFact (guid key value : String) (confidence : ℚ) (source ts : String) (ok : Bool)
  | vectorUpsertEpisode (guid episode_text : String) (importance : ℚ)
      (tags : List String) (ok : Bool)
  | graphUpsertUser (guid : String) (ok : Bool)
  | graphUpsertEntity (name etype : String) (ok : Bool)
  | graphUpsertFactRel (guid key value : String) (confidence : ℚ) (ts channel : String) (ok : Bool)
  | graphUpsertTriple (subject predicate obj : String) (confidence : ℚ)
      (channel ts : String) (ok : Bool)

/-- The write-path collaborators as oracles.  Each `…Ok` field is the boolean
an adapter *method* call would return (every adapter method wraps its body in
`try/except` and returns `False` on failure, so the method calls themselves
never raise); `embed` is `titan_embed` on the episode text (it catches every
exception internally).  `graphInitOk` models the one graph-store operation
that is **not** fault-isolated: `get_graph_store()` lazily constructs
`Neo4jGraphStore`, whose `__init__` / `init_constraints` run sessions with no
`try/except`, so an unreachable Neo4j raises at the first `get_graph_store()`
call of the write (`false` = that construction raises). -/
structure WriteStores where
  factUpsertOk : ℕ → Bool
  episodeUpsertOk : Bool
  userUpsertOk : Bool
  entityUpsertOk : ℕ → Bool
  factRelOk : ℕ → Bool
  tripleUpsertOk : ℕ → Bool
  embed : String → List (List ℚ)
  graphInitOk : Bool

/-- The output of `MemoryExtractor.extract_all`: the merged, already-filtered
extraction (the per-kind filters of `extract_structured` / `extract_triples`
have been applied; a parse failure degrades each half to empty lists). -/
structure Extraction where
  facts : List RawFact
  episodes : List RawEpisode
  entities : List RawEntity
  triples : List RawTriple

/-- The envelope `write_memory` returns. -/
structure WriteResult where
  success : Bool
  message : Option String
  error : Option String
deriving DecidableEq

/-- A Python `dict[key]` access: `KeyError` when the key is absent. -/
def keyErr (key : String) : Option α → Except String α
  | some v => .ok v
  | none => .error ("KeyError: " ++ key)

/-- The facts loop of `write_memory`
(`kv_store.upsert_fact(guid, fact["key"], fact["value"], fact["confidence"],
channel, ts)` per fact): the three direct accesses raise `KeyError` for a
missing key, aborting the whole write; otherwise the call's boolean is bound
and ignored. -/
def factPhase (stores : WriteStores) (guid channel ts : String) :
    ℕ → List RawFact → Except String (List StoreCall)
  | _, [] => .ok []
  | i, f :: rest =>
      match f.key, f.value, f.confidence with
      | some key, some value, some confidence =>
          match factPhase stores guid channel ts (i + 1) rest with
          | .ok tail => .ok (StoreCall.kvUpsertFact guid key value confidence channel ts
              (stores.factUpsertOk i) :: tail)
          | .error e => .error e
      | none, _, _ => .error "KeyError: key"
      | some _, none, _ => .error "KeyError: value"
      | some _, some _, none => .error "KeyError: confidence"

/-- The episode-text choice of `write_memory`:
`episodes[0]["summary"] if episodes else text` — the direct `["summary"]`
access raises `KeyError` when the first extracted episode lacks it. -/
def episodeTextOf (episodes : List RawEpisode) (text : String) : Except String String :=
  match episodes with
  | [] => .ok text
  | e :: _ => keyErr "summary" e.summary

/-- The entities loop of `write_memory`
(`upsert_entity(entity["name"], entity["type"])`): the `["name"]` access
raises `KeyError` when absent (`["type"]` is present in every
filter-surviving entity). -/
def entityPhase (stores : WriteStores) :
    ℕ → List RawEntity → Except String (List StoreCall)
  | _, [] => .ok []
  | i, en :: rest =>
      match en.name with
      | some name =>
          match entityPhase stores (i + 1) rest with
          | .ok tail => .ok (StoreCall.graphUpsertEntity name en.etype
              (stores.entityUpsertOk i) :: tail)
          | .error e => .error e
      | none => .error "KeyError: name"

/-- The fact-relationship loop of `write_memory`
(`upsert_fact_rel(guid, fact["key"], fact["value"], fact["confidence"], ts,
channel)`): the same three direct accesses as `factPhase`, re-run. -/
def factRelPhase (stores : WriteStores) (guid ts channel : String) :
    ℕ → List RawFact → Except String (List StoreCall)
  | _, [] => .ok []
  | i, f :: rest =>
      match f.key, f.value, f.confidence with
      | some key, some value, some confidence =>
          match factRelPhase stores guid ts channel (i + 1) rest with
          | .ok tail => .ok (StoreCall.graphUpsertFactRel guid key value confidence ts channel
              (stores.factRelOk i) :: tail)
          | .error e => .error e
      | none, _, _ => .error "KeyError: key"
      | some _, none, _ => .error "KeyError: value"
      | some _, some _, none => .error "KeyError: confidence"

/-- The triples loop of `write_memory`
(`upsert_triple(triple["subject"], triple["predicate"], triple["object"],
props)` with `props["confidence"] = triple["confidence"]`): direct accesses
to `subject`, `object` and `confidence` raise `KeyError` when absent
(`predicate` is present in every filter-surviving triple; `time` is read
with `.get`). -/
def triplePhase (stores : WriteStores) (channel ts : String) :
    ℕ → List RawTriple → Except String (List StoreCall)
  | _, [] => .ok []
  | i, t :: rest =>
      match t.subject, t.obj, t.confidence with
      | some subject, some obj, some confidence =>
          match triplePhase stores channel ts (i + 1) rest with
          | .ok tail => .ok (StoreCall.graphUpsertTriple subject t.predicate obj confidence
              channel ts (stores.tripleUpsertOk i) :: tail)
          | .error e => .error e
      | none, _, _ => .error "KeyError: subject"
      | some _, none, _ => .error "KeyError: object"
      | some _, some _, none => .error "KeyError: confidence"

/-- Model of `MemoryService.write_memory` after a successful extraction,
translated step by step; the second component records the attempted store
calls.  Any uncaught exception — a `KeyError` from a direct dictionary
access on a filter-surviving malformed item, or the lazy
`Neo4jGraphStore` construction raising at the write's first
`get_graph_store()` call (just before `upsert_user`) — lands in the
function's blanket `except` and yields `{"success": False, "error": str(e)}`.
On that failure path the calls attempted before the raise did execute but
are not recorded here (no property reads them).  The episode upsert is
skipped when the episode text's embedding result is empty
(`if embeddings:`); no adapter call's boolean outcome is ever consulted. -/
def write_memory (stores : WriteStores) (extracted : Extraction)
    (guid text channel ts : String) : WriteResult × List StoreCall :=
  match factPhase stores guid channel ts 0 extracted.facts with
  | .error e => (⟨false, none, some e⟩, [])
  | .ok factCalls =>
    match episodeTextOf extracted.episodes text with
    | .error e => (⟨false, none, some e⟩, [])
    | .ok episode_text =>
      let embeddings := stores.embed episode_text
      let episodeCalls : List StoreCall := match embeddings with
        | [] => []
        | _ :: _ =>
            [StoreCall.vectorUpsertEpisode guid episode_text
              (match extracted.episodes with
                | [] => 0.5
                | e :: _ => e.importance.getD 0.5)
              (match extracted.episodes with
                | [] => []
                | e :: _ => e.tags)
              stores.episodeUpsertOk]
      if stores.graphInitOk then
        match entityPhase stores 0 extracted.entities with
        | .error e => (⟨false, none, some e⟩, [])
        | .ok entityCalls =>
          match factRelPhase stores guid ts channel 0 extracted.facts with
          | .error e => (⟨false, none, some e⟩, [])
          | .ok factRelCalls =>
            match triplePhase stores channel ts 0 extracted.triples with
            | .error e => (⟨false, none, some e⟩, [])
            | .ok tripleCalls =>
                (⟨true, some "Memory written successfully", none⟩,
                 factCalls ++ episodeCalls ++
                   [StoreCall.graphUpsertUser guid stores.userUpsertOk] ++
                   entityCalls ++ factRelCalls ++ tripleCalls)
      else (⟨false, none, some "Neo4j graph store construction failed"⟩, [])

/-- A fact list whose items all carry key, value and confidence passes
`factPhase` without a `KeyError`. -/
theorem factPhase_isOk (stores : WriteStores) (guid channel ts : String)
    (facts : List RawFact)
    (h : ∀ f ∈ facts, f.key.isSome ∧ f.value.isSome ∧ f.confidence.isSome) :
    ∀ i, ∃ l, factPhase stores guid channel ts i facts = .ok l := by
  induction facts with
  | nil => exact fun i => ⟨[], rfl⟩
  | cons f rest ih =>
      intro i
      obtain ⟨hk, hv, hc⟩ := h f (List.mem_cons_self _ _)
      obtain ⟨k, hk2⟩ := Option.isSome_iff_exists.mp hk
      obtain ⟨v, hv2⟩ := Option.isSome_iff_exists.mp hv
      obtain ⟨c, hc2⟩ := Option.isSome_iff_exists.mp hc
      obtain ⟨tail, htail⟩ := ih (fun x hx => h x (List.mem_cons_of_mem _ hx)) (i + 1)
      exact ⟨StoreCall.kvUpsertFact guid k v c channel ts (stores.factUpsertOk i) :: tail,
        by simp [factPhase, hk2, hv2, hc2, htail]⟩

/-- An entity list whose items all carry a name passes `entityPhase`. -/
theorem entityPhase_isOk (stores : WriteStores) (entities : List RawEntity)
    (h : ∀ en ∈ entities, en.name.isSome) :
    ∀ i, ∃ l, entityPhase stores i entities = .ok l := by
  induction entities with
  | nil => exact fun i => ⟨[], rfl⟩
  | cons en rest ih =>
      intro i
      obtain ⟨n, hn2⟩ := Option.isSome_iff_exists.mp (h en (List.mem_cons_self _ _))
      obtain ⟨tail, htail⟩ := ih (fun x hx => h x (List.mem_cons_of_mem _ hx)) (i + 1)
      exact ⟨StoreCall.graphUpsertEntity n en.etype (stores.entityUpsertOk i) :: tail,
        by simp [entityPhase, hn2, htail]⟩

/-- A fact list whose items all carry key, value and confidence passes
`factRelPhase` without a `KeyError`. -/
theorem factRelPhase_isOk (stores : WriteStores) (guid ts channel : String)
    (facts : List RawFact)
    (h : ∀ f ∈ facts, f.key.isSome ∧ f.value.isSome ∧ f.confidence.isSome) :
    ∀ i, ∃ l, factRelPhase stores guid ts channel i facts = .ok l := by
  induction facts with
  | nil => exact fun i => ⟨[], rfl⟩
  | cons f rest ih =>
      intro i
      obtain ⟨hk, hv, hc⟩ := h f (List.mem_cons_self _ _)
      obtain ⟨k, hk2⟩ := Option.isSome_iff_exists.mp hk
      obtain ⟨v, hv2⟩ := Option.isSome_iff_exists.mp hv
      obtain ⟨c, hc2⟩ := Option.isSome_iff_exists.mp hc
      obtain ⟨tail, htail⟩ := ih (fun x hx => h x (List.mem_cons_of_mem _ hx)) (i + 1)
      exact ⟨StoreCall.graphUpsertFactRel guid k v c ts channel (stores.factRelOk i) :: tail,
        by simp [factRelPhase, hk2, hv2, hc2, htail]⟩

/-- A triple list whose items all carry subject, object and confidence
passes `triplePhase` without a `KeyError`. -/
theorem triplePhase_isOk (stores : WriteStores) (channel ts : String)
    (triples : List RawTriple)
    (h : ∀ t ∈ triples, t.subject.isSome ∧ t.obj.isSome ∧ t.confidence.isSome) :
    ∀ i, ∃ l, triplePhase stores channel ts i triples = .ok l := by
  induction triples with
  | nil => exact fun i => ⟨[], rfl⟩
  | cons t rest ih =>
      intro i
      obtain ⟨hs, ho, hc⟩ := h t (List.mem_cons_self _ _)
      obtain ⟨s, hs2⟩ := Option.isSome_iff_exists.mp hs
      obtain ⟨o, ho2⟩ := Option.isSome_iff_exists.mp ho
      obtain ⟨c, hc2⟩ := Option.isSome_iff_exists.mp hc
      obtain ⟨tail, htail⟩ := ih (fun x hx => h x (List.mem_cons_of_mem _ hx)) (i + 1)
      exact ⟨StoreCall.graphUpsertTriple s t.predicate o c channel ts
          (stores.tripleUpsertOk i) :: tail,
        by simp [triplePhase, hs2, ho2, hc2, htail]⟩

/-- C3 — counterexample. Extraction completes without error in both
scenarios, yet `write_memory` reports `success = false`: (a) with Neo4j
unreachable, the lazy `Neo4jGraphStore` construction at the write's first
`get_graph_store()` call raises uncaught into the blanket `except`; (b) a
parsed fact `{value, confidence}` with no `key` survives `filter_facts`
(its confidence 0.9 is at the 0.6 threshold) but the direct `fact["key"]`
access raises `KeyError`.  So store failures can surface to the caller and
the claim as stated is false. -/
theorem write_memory_claim_counterexample :
    (write_memory ⟨fun _ => true, true, true, fun _ => true, fun _ => true, fun _ => true,
        fun _ => [[1]], false⟩ ⟨[], [], [], []⟩ "u1" "hello" "email" "t1").1.success = false ∧
    filter_facts 0.6 [⟨none, some "100% of first 3%", some 0.9⟩] =
      [⟨none, some "100% of first 3%", some 0.9⟩] ∧
    (write_memory ⟨fun _ => true, true, true, fun _ => true, fun _ => true, fun _ => true,
        fun _ => [[1]], true⟩ ⟨[⟨none, some "100% of first 3%", some 0.9⟩], [], [], []⟩
      "u1" "hello" "email" "t1").1.success = false := by
  refine ⟨rfl, ?_, rfl⟩
  unfold filter_facts
  simp only [List.filter_cons, List.filter_nil]
  norm_num

/-- C3 — corrected. When the graph store initializes at the write's first
use and every filter-surviving item carries the fields the writer
dereferences (fact key/value/confidence, the first episode's summary, entity
names, triple subject/object/confidence), `write_memory` returns
`success = true` with no error for **every** combination of store-call
outcomes — including every call failing: the adapter booleans are never
consulted and no such failure reaches the envelope. -/
theorem write_memory_best_effort_success (stores : WriteStores)
    (extracted : Extraction) (guid text channel ts : String)
    (hgraph : stores.graphInitOk = true)
    (hfacts : ∀ f ∈ extracted.facts, f.key.isSome ∧ f.value.isSome ∧ f.confidence.isSome)
    (hsummary : ∀ e, extracted.episodes.head? = some e → e.summary.isSome)
    (hentities : ∀ en ∈ extracted.entities, en.name.isSome)
    (htriples : ∀ t ∈ extracted.triples,
      t.subject.isSome ∧ t.obj.isSome ∧ t.confidence.isSome) :
    (write_memory stores extracted guid text channel ts).1.success = true ∧
      (write_memory stores extracted guid text channel ts).1.error = none := by
  obtain ⟨l1, h1⟩ := factPhase_isOk stores guid channel ts extracted.facts hfacts 0
  obtain ⟨etext, h2⟩ : ∃ s, episodeTextOf extracted.episodes text = .ok s := by
    cases heps : extracted.episodes with
    | nil => exact ⟨text, rfl⟩
    | cons e rest =>
        have hs := hsummary e (by rw [heps]; rfl)
        obtain ⟨s, hs2⟩ := Option.isSome_iff_exists.mp hs
        exact ⟨s, by simp [episodeTextOf, hs2, keyErr]⟩
  obtain ⟨l3, h3⟩ := entityPhase_isOk stores extracted.entities hentities 0
  obtain ⟨l4, h4⟩ := factRelPhase_isOk stores guid ts channel extracted.facts hfacts 0
  obtain ⟨l5, h5⟩ := triplePhase_isOk stores channel ts extracted.triples htriples 0
  constructor <;> simp [write_memory, h1, h2, h3, h4, h5, hgraph]

/-- The all-failing write-path oracles of the witness: every adapter call
returns `False`, but the graph store constructs. -/
def demoWriteStores : WriteStores :=
  ⟨fun _ => false, false, false, fun _ => false, fun _ => false, fun _ => false,
   fun _ => [[1]], true⟩

/-- A well-formed extraction with one item of each kind. -/
def demoExtraction : Extraction :=
  ⟨[⟨some "match_formula", some "100% of first 3%", some 1⟩],
   [⟨some "employer match discussed", some 1, ["benefits"]⟩],
   [⟨some "Acme", "Org", none⟩],
   [⟨some "Acme", "PREFERS", some "matching", some 1, none⟩]⟩

/-- Closed instance of `write_memory_best_effort_success`: with every
adapter call failing and a well-formed one-item extraction, the write still
reports success. -/
theorem write_memory_best_effort_success_witness :
    demoWriteStores.graphInitOk = true ∧
    (∀ f ∈ demoExtraction.facts, f.key.isSome ∧ f.value.isSome ∧ f.confidence.isSome) ∧
    (∀ en ∈ demoExtraction.entities, en.name.isSome) ∧
    (∀ t ∈ demoExtraction.triples,
      t.subject.isSome ∧ t.obj.isSome ∧ t.confidence.isSome) ∧
    (write_memory demoWriteStores demoExtraction "u1" "hello" "email" "t1").1.success = true ∧
      (write_memory demoWriteStores demoExtraction "u1" "hello" "email" "t1").1.error = none :=
  have hfacts : ∀ f ∈ demoExtraction.facts,
      f.key.isSome ∧ f.value.isSome ∧ f.confidence.isSome := by decide
  have hsummary : ∀ e, demoExtraction.episodes.head? = some e → e.summary.isSome := by
    intro e he
    have h := Option.some.inj he
    rw [← h]
    rfl
  have hentities : ∀ en ∈ demoExtraction.entities, en.name.isSome := by decide
  have htriples : ∀ t ∈ demoExtraction.triples,
      t.subject.isSome ∧ t.obj.isSome ∧ t.confidence.isSome := by decide
  ⟨rfl, hfacts, hentities, htriples,
    write_memory_best_effort_success demoWriteStores demoExtraction "u1" "hello" "email" "t1"
      rfl hfacts hsummary hentities htriples⟩

/-- The reasoning-call payload the claim asserts for the context
synthesizer: the query, the top-5 facts, the top-**5** scored episodes and
the top-3 graph hits. -/
def specClaimContextInput (facts : List FactOut) (episodes : List ScoredEpisode)
    (graph_hits : List GraphHit) (query : String) : ContextData :=
  ⟨query, facts.take 5, episodes.take 5, graph_hits.take 3⟩

/-- A minimal scored episode used in closed instances. -/
def demoScoredEp (i : String) : ScoredEpisode :=
  ⟨i, "t", ⟨none, none, none⟩, 0, 0, .fin 0⟩

/-- C9 — counterexample. With four scored episodes available, the payload of
the synthesizer's reasoning call holds only the top **3** episodes
(`episodes[:3]` in `build_context_card`), not the top 5 the claim states. -/
theorem build_context_card_top5_counterexample :
    (build_context_card (fun _ => none) []
        [demoScoredEp "e1", demoScoredEp "e2", demoScoredEp "e3", demoScoredEp "e4"]
        [] "q").1 ≠
      specClaimContextInput []
        [demoScoredEp "e1", demoScoredEp "e2", demoScoredEp "e3", demoScoredEp "e4"]
        [] "q" := by
  decide

/-- C9 — corrected. `search_memory` makes exactly one reasoning call (the
payload recorded in `ctxInput`), whose input contains the query, the top-5
facts, the top-**3** scored episodes (the service passes the top 5 and the
synthesizer keeps 3 of them) and the top-3 graph hits; when the call fails
the context card is the empty string and the search still succeeds. -/
theorem search_context_card_spec (env : SearchEnv) (kvdb : List FactRow)
    (vstore : List StoredEp) (req : SearchReq) :
    (search_memory env kvdb vstore req).ctxInput =
      ⟨req.query, (search_memory env kvdb vstore req).facts.take 5,
        (search_memory env kvdb vstore req).episodes.take 3,
        (search_memory env kvdb vstore req).graph_hits.take 3⟩ ∧
    (env.claude (search_memory env kvdb vstore req).ctxInput = none →
      (search_memory env kvdb vstore req).context_card = "") ∧
    (search_memory env kvdb vstore req).success = true := by
  refine ⟨?_, ?_, rfl⟩
  · show ContextData.mk _ _ _ _ = _
    simp only [search_memory, build_context_card]
    simp [List.take_take]
  · intro h
    show (env.claude (search_memory env kvdb vstore req).ctxInput).getD "" = ""
    rw [h]
    rfl

/-- Closed instance of `search_context_card_spec` on a one-episode store. -/
theorem search_context_card_spec_witness :
    (search_memory ⟨fun _ => [[1]], fun _ _ => 0, fun q => q, fun q => q, fun _ _ => 99,
        fun _ _ _ => [], fun _ => none, 0⟩
      [] [⟨"e1", "u1", "x", 0, 1, [1]⟩] ⟨"u1", "q", none, none, none⟩).ctxInput =
      ⟨"q",
        (search_memory ⟨fun _ => [[1]], fun _ _ => 0, fun q => q, fun q => q, fun _ _ => 99,
            fun _ _ _ => [], fun _ => none, 0⟩
          [] [⟨"e1", "u1", "x", 0, 1, [1]⟩] ⟨"u1", "q", none, none, none⟩).facts.take 5,
        (search_memory ⟨fun _ => [[1]], fun _ _ => 0, fun q => q, fun q => q, fun _ _ => 99,
            fun _ _ _ => [], fun _ => none, 0⟩
          [] [⟨"e1", "u1", "x", 0, 1, [1]⟩] ⟨"u1", "q", none, none, none⟩).episodes.take 3,
        (search_memory ⟨fun _ => [[1]], fun _ _ => 0, fun q => q, fun q => q, fun _ _ => 99,
            fun _ _ _ => [], fun _ => none, 0⟩
          [] [⟨"e1", "u1", "x", 0, 1, [1]⟩] ⟨"u1", "q", none, none, none⟩).graph_hits.take 3⟩ ∧
    ((fun _ => (none : Option String)) (search_memory ⟨fun _ => [[1]], fun _ _ => 0,
        fun q => q, fun q => q, fun _ _ => 99, fun _ _ _ => [], fun _ => none, 0⟩
      [] [⟨"e1", "u1", "x", 0, 1, [1]⟩] ⟨"u1", "q", none, none, none⟩).ctxInput = none →
      (search_memory ⟨fun _ => [[1]], fun _ _ => 0, fun q => q, fun q => q, fun _ _ => 99,
          fun _ _ _ => [], fun _ => none, 0⟩
        [] [⟨"e1", "u1", "x", 0, 1, [1]⟩] ⟨"u1", "q", none, none, none⟩).context_card = "") ∧
    (search_memory ⟨fun _ => [[1]], fun _ _ => 0, fun q => q, fun q => q, fun _ _ => 99,
        fun _ _ _ => [], fun _ => none, 0⟩
      [] [⟨"e1", "u1", "x", 0, 1, [1]⟩] ⟨"u1", "q", none, none, none⟩).success = true :=
  search_context_card_spec ⟨fun _ => [[1]], fun _ _ => 0, fun q => q, fun q => q,
    fun _ _ => 99, fun _ _ _ => [], fun _ => none, 0⟩
    [] [⟨"e1", "u1", "x", 0, 1, [1]⟩] ⟨"u1", "q", none, none, none⟩

/-- C10 — confirmed. Every episode in a search result comes from a stored
episode owned by the requesting guid (the vector query filters on the guid
stamped at upsert), and every fact comes from a table row owned by that guid
with confidence at least 0.6: no other owner's data appears in the result. -/
theorem search_results_owner_scoped (env : SearchEnv) (kvdb : List FactRow)
    (vstore : List StoredEp) (req : SearchReq) :
    (∀ ep ∈ (search_memory env kvdb vstore req).episodes,
      ∃ e ∈ vstore, e.guid = req.guid ∧ ep.id = e.id) ∧
    (∀ f ∈ (search_memory env kvdb vstore req).facts,
      ∃ r ∈ kvdb, r.guid = req.guid ∧ (0.6 : ℚ) ≤ r.confidence ∧ f = r.toOut) := by
  constructor
  · intro ep hep
    simp only [search_memory] at hep
    rw [mem_sortBy] at hep
    rcases List.mem_map.mp hep with ⟨er, her, hws⟩
    rcases query_similar_mem _ _ _ _ _ _ _ _ her with ⟨e, hedb, hguid, _hsince, qe, hres⟩
    refine ⟨e, hedb, hguid, ?_⟩
    rw [← hws, hres]
    rfl
  · intro f hf
    simp only [search_memory] at hf
    exact get_facts_owner kvdb req.guid 0.6 f hf

/-- Closed instance of `search_results_owner_scoped`: a store holding
episodes and facts of two owners, queried for owner `u1`. -/
theorem search_results_owner_scoped_witness :
    (∀ ep ∈ (search_memory ⟨fun _ => [[1]], fun _ _ => 0, fun q => q, fun q => q,
        fun _ _ => 99, fun _ _ _ => [], fun _ => none, 0⟩
        [⟨"u1", "k", "v", 1, "email", "t"⟩, ⟨"u2", "k", "w", 1, "email", "t"⟩]
        [⟨"e1", "u1", "x", 0, 1, [1]⟩, ⟨"e2", "u2", "y", 0, 1, [1]⟩]
        ⟨"u1", "q", none, none, none⟩).episodes,
      ∃ e ∈ ([⟨"e1", "u1", "x", 0, 1, [1]⟩, ⟨"e2", "u2", "y", 0, 1, [1]⟩] : List StoredEp),
        e.guid = "u1" ∧ ep.id = e.id) ∧
    (∀ f ∈ (search_memory ⟨fun _ => [[1]], fun _ _ => 0, fun q => q, fun q => q,
        fun _ _ => 99, fun _ _ _ => [], fun _ => none, 0⟩
        [⟨"u1", "k", "v", 1, "email", "t"⟩, ⟨"u2", "k", "w", 1, "email", "t"⟩]
        [⟨"e1", "u1", "x", 0, 1, [1]⟩, ⟨"e2", "u2", "y", 0, 1, [1]⟩]
        ⟨"u1", "q", none, none, none⟩).facts,
      ∃ r ∈ ([⟨"u1", "k", "v", 1, "email", "t"⟩, ⟨"u2", "k", "w", 1, "email", "t"⟩] :
          List FactRow),
        r.guid = "u1" ∧ (0.6 : ℚ) ≤ r.confidence ∧ f = r.toOut) :=
  search_results_owner_scoped ⟨fun _ => [[1]], fun _ _ => 0, fun q => q, fun q => q,
    fun _ _ => 99, fun _ _ _ => [], fun _ => none, 0⟩
    [⟨"u1", "k", "v", 1, "email", "t"⟩, ⟨"u2", "k", "w", 1, "email", "t"⟩]
    [⟨"e1", "u1", "x", 0, 1, [1]⟩, ⟨"e2", "u2", "y", 0, 1, [1]⟩]
    ⟨"u1", "q", none, none, none⟩


/-! ## Forgetting (`MemoryService.forget_memory`)

The hard-delete branch enumerates the owner's episodes with
`query_similar(guid, "", k=1000)` — which uses `query_similar`'s **default
`since_days = 30` window** — and purges the enumerated ids. -/

/-- The collaborators `forget_memory` consults, as oracles.  `claude` is the
confirmation call, given the joined deleted-items summary. -/
structure ForgetEnv where
  embed : String → List (List ℚ)
  dist : List ℚ → List ℚ → ℚ
  claude : String → Option String
  now : ℤ

/-- A forget request; `keys`, `entities`, `predicates` default to `[]` and
`hard_delete` to `False`. -/
structure ForgetReq where
  guid : String
  keys : List String
  entities : List String
  predicates : List String
  hard_delete : Bool

/-- The envelope `forget_memory` returns, together with the resulting store
states. -/
structure ForgetOutcome where
  success : Bool
  deleted_items : List String
  confirmation : String
  kvdb : List FactRow
  vstore : List StoredEp

/-- Model of `MemoryService.forget_memory` (success path), translated step by step:
delete the named fact keys (recording only actual removals); then either
enumerate episodes via `query_similar(guid, "", k=1000)` — with its default
30-day window — and purge them by id (hard delete), or record the redaction
marker; acknowledge entity/predicate requests; generate the confirmation via
one reasoning call that degrades to `""`. -/
def forget_memory (env : ForgetEnv) (kvdb : List FactRow) (vstore : List StoredEp)
    (req : ForgetReq) : ForgetOutcome :=
  let step1 := req.keys.foldl (fun acc key =>
      let res := delete_fact acc.1 req.guid key
      (res.1, if res.2 then acc.2 ++ ["fact:" ++ key] else acc.2))
    (kvdb, ([] : List String))
  let kvdb2 := step1.1
  let items1 := step1.2
  let epStep :=
    if req.hard_delete then
      let episodes := query_similar env.dist vstore (env.embed "") req.guid 1000
        (some 30) env.now
      let episode_ids := episodes.map (fun e => e.id)
      if episode_ids.isEmpty then (vstore, items1)
      else (delete_by_ids vstore episode_ids,
        items1 ++ ["episodes:" ++ toString episode_ids.length])
    else (vstore, items1 ++ ["episodes:marked_redacted"])
  let vstore2 := epStep.1
  let items2 := epStep.2
  let items3 :=
    if !req.entities.isEmpty || !req.predicates.isEmpty then
      items2 ++ ["graph:relationships_updated"]
    else items2
  let confirmation := (env.claude (String.intercalate ", " items3)).getD ""
  ⟨true, items3, confirmation, kvdb2, vstore2⟩

/-- The forget-demo oracles: embeddings exist, all distances are 0, the
confirmation call fails, and "now" is day 40 (in seconds). -/
def forgetDemoEnv : ForgetEnv :=
  ⟨fun _ => [[1]], fun _ _ => 0, fun _ => none, 3456000⟩

/-- A store holding one episode of owner `u1`, written at time 0 — 40 days
before `forgetDemoEnv.now`. -/
def forgetDemoStore : List StoredEp :=
  [⟨"e1", "u1", "hello", 0, 1, [1]⟩]

/-- C6 — counterexample. Owner `u1` has one episode, 40 days old.
`forget_memory(hard_delete=True)` enumerates episodes through
`query_similar(guid, "", k=1000)`, whose default `since_days = 30` window
excludes the episode, so nothing is purged — and a subsequent `query_similar`
with `since_days = 60` still returns the pre-existing id `e1`.  The claim
that a hard-delete forget purges **all** of the owner's episodes is false. -/
theorem forget_hard_delete_counterexample :
    forgetDemoStore.map (fun e => e.id) = ["e1"] ∧
      (query_similar forgetDemoEnv.dist
        (forget_memory forgetDemoEnv [] forgetDemoStore ⟨"u1", [], [], [], true⟩).vstore
        [[1]] "u1" 8 (some 60) forgetDemoEnv.now).map (fun e => e.id) = ["e1"] := by
  constructor
  · decide
  · decide

/-- C6 — corrected. A hard-delete forget purges exactly the episodes returned
by its enumeration query (`query_similar` with the empty query, `k = 1000`
and the default 30-day window): no subsequent `query_similar` ever returns a
purged id, but episodes outside the 30-day window (or beyond the 1000 cap)
survive the forget call — as witnessed by `forget_hard_delete_counterexample`. -/
theorem forget_hard_delete_purges_enumerated (env : ForgetEnv)
    (kvdb : List FactRow) (vstore : List StoredEp) (req : ForgetReq)
    (hhard : req.hard_delete = true)
    (qembs : List (List ℚ)) (k : ℕ) (sd : Option ℕ) (now2 : ℤ) :
    ∀ r ∈ query_similar env.dist
        (forget_memory env kvdb vstore req).vstore qembs req.guid k sd now2,
      r.id ∉ (query_similar env.dist vstore (env.embed "") req.guid 1000
        (some 30) env.now).map (fun e => e.id) := by
  intro r hr
  set enumIds := (query_similar env.dist vstore (env.embed "") req.guid 1000
    (some 30) env.now).map (fun e => e.id) with hids
  have hvstore2 : (forget_memory env kvdb vstore req).vstore =
      (if enumIds.isEmpty then vstore else delete_by_ids vstore enumIds) := by
    simp only [forget_memory, hhard, if_true]
    by_cases hemp : enumIds.isEmpty
    · simp [← hids, hemp]
    · simp [← hids, hemp]
  by_cases hemp : enumIds.isEmpty
  · rw [List.isEmpty_iff] at hemp
    rw [hemp]
    exact List.not_mem_nil _
  · rw [hvstore2, if_neg hemp] at hr
    rcases query_similar_mem _ _ _ _ _ _ _ _ hr with ⟨e, hedb, _hguid, _hsince, qe, hres⟩
    rcases delete_by_ids_mem vstore enumIds e hedb with ⟨_hmem, hnotin⟩
    have hid : r.id = e.id := by rw [hres]; rfl
    rw [hid]
    exact hnotin

/-- A two-episode store of owner `u1`: a fresh episode (inside the 30-day
enumeration window, so it is purged) and a 40-day-old one (outside it). -/
def forgetDemoStoreTwo : List StoredEp :=
  [⟨"e2", "u1", "fresh", 3456000, 1, [1]⟩, ⟨"e1", "u1", "hello", 0, 1, [1]⟩]

/-- The surviving old episode as a `query_similar` result. -/
def forgetDemoResult : EpisodeResult :=
  StoredEp.toResult forgetDemoEnv.dist [1] ⟨"e1", "u1", "hello", 0, 1, [1]⟩

/-- Closed instance of `forget_hard_delete_purges_enumerated`: after the
hard delete, a subsequent query returns the surviving old episode, whose id
is not among the enumerated (purged) ids. -/
theorem forget_hard_delete_purges_enumerated_witness :
    (⟨"u1", [], [], [], true⟩ : ForgetReq).hard_delete = true ∧
    forgetDemoResult ∈ query_similar forgetDemoEnv.dist
      (forget_memory forgetDemoEnv [] forgetDemoStoreTwo
        ⟨"u1", [], [], [], true⟩).vstore [[1]] "u1" 8 (some 60) forgetDemoEnv.now ∧
    forgetDemoResult.id ∉ (query_similar forgetDemoEnv.dist forgetDemoStoreTwo
      (forgetDemoEnv.embed "") "u1" 1000 (some 30) forgetDemoEnv.now).map
        (fun e => e.id) :=
  have hmem : forgetDemoResult ∈ query_similar forgetDemoEnv.dist
      (forget_memory forgetDemoEnv [] forgetDemoStoreTwo
        ⟨"u1", [], [], [], true⟩).vstore [[1]] "u1" 8 (some 60) forgetDemoEnv.now := by
    have hq : query_similar forgetDemoEnv.dist
        (forget_memory forgetDemoEnv [] forgetDemoStoreTwo
          ⟨"u1", [], [], [], true⟩).vstore [[1]] "u1" 8 (some 60) forgetDemoEnv.now =
        [forgetDemoResult] := rfl
    rw [hq]
    exact List.mem_singleton.mpr rfl
  ⟨rfl, hmem,
    forget_hard_delete_purges_enumerated forgetDemoEnv [] forgetDemoStoreTwo
      ⟨"u1", [], [], [], true⟩ rfl [[1]] 8 (some 60) forgetDemoEnv.now
      forgetDemoResult hmem⟩

end MemGraph
